import Mathlib

/-!
Verification of the incremental aggregation core of the openai-exporter
(foxdalas/openai-exporter, src/main.go and src/main_test.go).

Shallow embedding conventions:
* Go `int64` Unix timestamps and token counts are modelled as `Int`.
  The ledger `usageState` stores Go `float64` values, but every value the
  program ever stores there is `float64(tokenCount)` for an `int64` token
  count, an exact conversion, and `updateMetric` performs no arithmetic on
  the stored value; values are therefore modelled as `Int`.
* Go maps (`usageState`, `projectNames`) are modelled as association lists
  with a first-match lookup; the program only inserts a key when it is
  absent, so keys stay unique.
* The mutable global state threaded through `updateMetric` and the
  Prometheus counter side effect are made explicit: `updateMetric` returns
  the new ledger together with the amount added to the counter series by
  the call (`0` when nothing was published).
* JSON values reaching `StringOrBool.UnmarshalJSON` are modelled by a small
  value type `Json`; `encoding/json`'s behaviour that a field decode error
  fails the whole `Decode` is modelled by `decodePage`.
-/

/-- A JSON value, as far as `StringOrBool.UnmarshalJSON` inspects it. -/
inductive Json where
  | null : Json
  | str (s : String) : Json
  | bool (b : Bool) : Json
  | num (n : Int) : Json
  | arr (elems : List Json) : Json
  | obj (fields : List (String × Json)) : Json

/-- Embedding of `StringOrBool.UnmarshalJSON` (src/main.go:24-47) at the
JSON-value level: `null` becomes `"unknown"`, a JSON string keeps its value,
a JSON boolean becomes `"true"`/`"false"`, and any other JSON value is an
error (`"unsupported type for StringOrBool"`). -/
def StringOrBool.unmarshalJSON : Json → Except String String
  | Json.null => Except.ok "unknown"
  | Json.str s => Except.ok s
  | Json.bool true => Except.ok "true"
  | Json.bool false => Except.ok "false"
  | _ => Except.error "unsupported type for StringOrBool"

/-- `UsageResult` (src/main.go:128-141) after JSON decoding: the pointer
fields are `Option String`, the `batch` field has already been normalized
by `StringOrBool.UnmarshalJSON` into a plain string. -/
structure UsageResult where
  inputTokens : Int
  outputTokens : Int
  inputCachedTokens : Int
  inputAudioTokens : Int
  outputAudioTokens : Int
  numModelRequests : Int
  projectID : Option String
  userID : Option String
  apiKeyID : Option String
  model : Option String
  batch : String
deriving DecidableEq, Repr

/-- A raw usage record before the `batch` field has been decoded: the
`batch` field is still an arbitrary JSON value. -/
structure RawUsageResult where
  inputTokens : Int
  outputTokens : Int
  inputCachedTokens : Int
  inputAudioTokens : Int
  outputAudioTokens : Int
  numModelRequests : Int
  projectID : Option String
  userID : Option String
  apiKeyID : Option String
  model : Option String
  batch : Json

/-- Decoding one usage record: `encoding/json` calls
`StringOrBool.UnmarshalJSON` on the `batch` field and propagates its error. -/
def decodeUsageResult (r : RawUsageResult) : Except String UsageResult :=
  match StringOrBool.unmarshalJSON r.batch with
  | Except.error e => Except.error e
  | Except.ok b =>
      Except.ok
        { inputTokens := r.inputTokens
          outputTokens := r.outputTokens
          inputCachedTokens := r.inputCachedTokens
          inputAudioTokens := r.inputAudioTokens
          outputAudioTokens := r.outputAudioTokens
          numModelRequests := r.numModelRequests
          projectID := r.projectID
          userID := r.userID
          apiKeyID := r.apiKeyID
          model := r.model
          batch := b }

/-- Decoding a page of usage records, as `json.NewDecoder(...).Decode`
(src/main.go:234-237) does: the first field decode error fails the whole
page. -/
def decodePage : List RawUsageResult → Except String (List UsageResult)
  | [] => Except.ok []
  | r :: rs =>
      match decodeUsageResult r with
      | Except.error e => Except.error e
      | Except.ok u =>
          match decodePage rs with
          | Except.error e => Except.error e
          | Except.ok us => Except.ok (u :: us)

/-- `deref` (src/main.go:279-284): a nil string pointer becomes
`"unknown"`, any other pointer is dereferenced. -/
def deref : Option String → String
  | none => "unknown"
  | some s => s

/-- The label set built for one usage record in `fetchUsageData`
(src/main.go:247-254), before `token_type` is merged in. -/
structure Labels where
  model : String
  operation : String
  project_id : String
  user_id : String
  api_key_id : String
  batch : String
deriving DecidableEq, Repr

/-- Construction of the labels for one record (src/main.go:247-254):
each optional dimension goes through `deref`; the operation is the
endpoint name; `batch` is the decoded `StringOrBool` value. -/
def buildLabels (operationName : String) (r : UsageResult) : Labels :=
  { model := deref r.model
    operation := operationName
    project_id := deref r.projectID
    user_id := deref r.userID
    api_key_id := deref r.apiKeyID
    batch := r.batch }

/-- The composite deduplication key of `updateMetric` (src/main.go:174-183):
`strings.Join` with separator `"|"` of operation, bucket start
(`fmt.Sprintf("%d", bucketStart)`), project id, user id, api-key id,
model, batch and the token type. -/
def compositeKey (labels : Labels) (tokenType : String) (bucketStart : Int) : String :=
  String.intercalate "|"
    [labels.operation, toString bucketStart, labels.project_id,
     labels.user_id, labels.api_key_id, labels.model, labels.batch, tokenType]

/-- The global ledger `usageState : map[string]float64` (src/main.go:54),
as an association list. -/
abbrev UsageState := List (String × Int)

/-- Go map lookup on the ledger. -/
def lookupState : UsageState → String → Option Int
  | [], _ => none
  | (k, v) :: rest, key => if key = k then some v else lookupState rest key

/-- `updateMetric` (src/main.go:173-203).  `now` is `time.Now().Unix()` at
the call.  Returns the new ledger and the amount added to the counter
series `tokensTotal.With(mergeLabels(labels, "token_type", tokenType))`
by this call (`0` when the call published nothing):
* an uncompleted bucket (`bucketEnd > now`) is skipped;
* an already-processed composite key is skipped;
* otherwise `newValue` is added to the counter and recorded in the ledger. -/
def updateMetric (now : Int) (st : UsageState) (labels : Labels)
    (tokenType : String) (bucketStart bucketEnd : Int) (newValue : Int) :
    UsageState × Int :=
  let key := compositeKey labels tokenType bucketStart
  if bucketEnd > now then
    (st, 0)
  else
    match lookupState st key with
    | some _ => (st, 0)
    | none => ((key, newValue) :: st, newValue)

/-- One call to `updateMetric`, with the wall clock at the moment of the
call bundled in. -/
structure Observation where
  labels : Labels
  tokenType : String
  bucketStart : Int
  bucketEnd : Int
  newValue : Int
  now : Int
deriving Repr

/-- The Bucket Key of an observation. -/
def obKey (o : Observation) : String :=
  compositeKey o.labels o.tokenType o.bucketStart

/-- Apply one observation to the ledger. -/
def applyObs (st : UsageState) (o : Observation) : UsageState × Int :=
  updateMetric o.now st o.labels o.tokenType o.bucketStart o.bucketEnd o.newValue

/-- The ledger after a sequence of `updateMetric` calls. -/
def runState : UsageState → List Observation → UsageState
  | st, [] => st
  | st, o :: rest => runState (applyObs st o).1 rest

/-- The sum of all counter increments applied for a given Bucket Key over a
sequence of `updateMetric` calls. -/
def incrementsFor (key : String) : UsageState → List Observation → Int
  | _, [] => 0
  | st, o :: rest =>
      (if obKey o = key then (applyObs st o).2 else 0) +
        incrementsFor key (applyObs st o).1 rest

/-- The label names of the `tokensTotal` counter vector
(src/main.go:82-88). -/
def tokensTotalLabelNames : List String :=
  ["model", "operation", "project_id", "user_id", "api_key_id", "batch", "token_type"]

/-- The token-counter label set in the spec's words (§6 "Outbound surface"):
`{model, operation, project_id, project_name, user_id, api_key_id, batch,
token_type}`.  Kept separate from `tokensTotalLabelNames` (the source's
list) so the two can be compared. -/
def specTokenCounterLabelNames : List String :=
  ["model", "operation", "project_id", "project_name", "user_id", "api_key_id",
   "batch", "token_type"]

/-- `UsageEndpoint` (src/main.go:60-63). -/
structure UsageEndpoint where
  Path : String
  Name : String
deriving DecidableEq, Repr

/-- `usageEndpoints` (src/main.go:72-80). -/
def usageEndpoints : List UsageEndpoint :=
  [⟨"completions", "completions"⟩,
   ⟨"embeddings", "embeddings"⟩,
   ⟨"moderations", "moderations"⟩,
   ⟨"images", "images"⟩,
   ⟨"audio_speeches", "audio_speeches"⟩,
   ⟨"audio_transcriptions", "audio_transcriptions"⟩,
   ⟨"vector_stores", "vector_stores"⟩]

/-- One iteration of the `collect` loop (src/main.go:288-309): with the
cursor `lastScrape`, every endpoint is fetched over the window
`[lastScrape, lastScrape+60)`; after all fetches complete (`wg.Wait()`),
`lastScrape += 60`.  Returns the list of `(endpoint path, startTime,
endTime)` fetches issued and the new cursor. -/
def collectCycle (lastScrape : Int) : List (String × Int × Int) × Int :=
  (usageEndpoints.map fun ep => (ep.Path, lastScrape, lastScrape + 60),
   lastScrape + 60)

/-- The cursor after `n` iterations of the `collect` loop. -/
def cursorAfter (c : Int) : Nat → Int
  | 0 => c
  | n + 1 => (collectCycle (cursorAfter c n)).2

/-- The project-name cache `projectNames : map[string]string`, as an
association list. -/
abbrev NameCache := List (String × String)

/-- Go map lookup on the name cache. -/
def lookupCache : NameCache → String → Option String
  | [], _ => none
  | (k, v) :: rest, key => if key = k then some v else lookupCache rest key

/-- Modelled from the spec: the implementation of `ensureProjectName` is
not in src/ (src/main.go predates it; only `TestEnsureProjectName` in
src/main_test.go and the README mention it).  Per §4.3 of the spec: an
empty or `"unknown"` identifier returns `"unknown"` with no fetch; a cache
hit returns the cached name; a cache miss performs one fetch, caches a
successful result and returns it; a fetch failure returns `"unknown"`
without caching anything.  The network fetch is abstracted as a function
argument. -/
def ensureProjectName (fetch : String → Except String String)
    (cache : NameCache) (projectID : String) : String × NameCache :=
  if projectID = "" ∨ projectID = "unknown" then
    ("unknown", cache)
  else
    match lookupCache cache projectID with
    | some name => (name, cache)
    | none =>
        match fetch projectID with
        | Except.ok name => (name, (projectID, name) :: cache)
        | Except.error _ => ("unknown", cache)

/-- A fetch that always fails (e.g. the 1 ms-timeout client of
`TestEnsureProjectName`'s "API error returns unknown" case). -/
def fetchAlwaysFails : String → Except String String :=
  fun _ => Except.error "timeout"

/-- A fetch that succeeds with a fixed name (as in `TestEnsureProjectName`'s
"fetch project name from API" case). -/
def fetchFixedName : String → Except String String :=
  fun _ => Except.ok "fetched-project"

/-- The label set of the spec's closed-bucket scenario
(`model=gpt-4, project=p1, ...`). -/
def labelsGpt4 : Labels :=
  { model := "gpt-4", operation := "completions", project_id := "p1",
    user_id := "u1", api_key_id := "k1", batch := "false" }

/-- The spec's closed-bucket scenario: bucket `[1000, 1060)` with
`input_tokens = 500`, observed at `now = 1100`. -/
def closedObs : Observation :=
  { labels := labelsGpt4, tokenType := "input", bucketStart := 1000,
    bucketEnd := 1060, newValue := 500, now := 1100 }

/-- The spec's open-bucket scenario, first observation: bucket
`[1000, 1200)` with `input_tokens = 100`, observed at `now = 1100`. -/
def openObs1 : Observation :=
  { labels := labelsGpt4, tokenType := "input", bucketStart := 1000,
    bucketEnd := 1200, newValue := 100, now := 1100 }

/-- The spec's open-bucket scenario, second observation one cycle later:
the same bucket with `input_tokens = 130`, observed at `now = 1160`
(the bucket is still open). -/
def openObs2 : Observation :=
  { labels := labelsGpt4, tokenType := "input", bucketStart := 1000,
    bucketEnd := 1200, newValue := 130, now := 1160 }

/-- An observation agreeing with `closedObs` on all eight Bucket-Key
components but with a different bucket end, observed value and clock. -/
def obsSameKeyOtherFields : Observation :=
  { labels := labelsGpt4, tokenType := "input", bucketStart := 1000,
    bucketEnd := 99999, newValue := 777, now := 5 }

/-- A raw record whose `batch` field decodes successfully. -/
def rawGood : RawUsageResult :=
  { inputTokens := 10, outputTokens := 20, inputCachedTokens := 0,
    inputAudioTokens := 0, outputAudioTokens := 0, numModelRequests := 1,
    projectID := some "p1", userID := some "u1", apiKeyID := some "k1",
    model := some "gpt-4", batch := Json.bool false }

/-- A raw record whose `batch` field is the JSON number `123`. -/
def rawWithNumericBatch : RawUsageResult :=
  { rawGood with batch := Json.num 123 }

/-! ### Helper lemmas about `updateMetric` -/

/-- An uncompleted bucket is skipped: no state change, no increment. -/
theorem applyObs_open (st : UsageState) (o : Observation)
    (h : o.bucketEnd > o.now) : applyObs st o = (st, 0) := by
  simp only [applyObs, updateMetric]
  rw [if_pos h]

/-- A completed bucket whose key is already recorded is skipped. -/
theorem applyObs_seen (st : UsageState) (o : Observation)
    (h : ¬ o.bucketEnd > o.now) (v : Int)
    (hl : lookupState st (obKey o) = some v) : applyObs st o = (st, 0) := by
  simp only [applyObs, updateMetric]
  rw [if_neg h]
  rw [show compositeKey o.labels o.tokenType o.bucketStart = obKey o from rfl, hl]

/-- A completed bucket with a fresh key is published and recorded. -/
theorem applyObs_new (st : UsageState) (o : Observation)
    (h : ¬ o.bucketEnd > o.now) (hl : lookupState st (obKey o) = none) :
    applyObs st o = ((obKey o, o.newValue) :: st, o.newValue) := by
  simp only [applyObs, updateMetric]
  rw [if_neg h]
  rw [show compositeKey o.labels o.tokenType o.bucketStart = obKey o from rfl, hl]

/-- A call whose key is already recorded never changes anything,
whether or not the bucket is completed. -/
theorem applyObs_noop_of_some (st : UsageState) (o : Observation) (v : Int)
    (hl : lookupState st (obKey o) = some v) : applyObs st o = (st, 0) := by
  by_cases h : o.bucketEnd > o.now
  · exact applyObs_open st o h
  · exact applyObs_seen st o h v hl

/-- `updateMetric` only ever inserts its own key: lookups of other keys are
unchanged. -/
theorem lookupState_applyObs_ne (st : UsageState) (o : Observation)
    (k : String) (hk : obKey o ≠ k) :
    lookupState (applyObs st o).1 k = lookupState st k := by
  by_cases h : o.bucketEnd > o.now
  · rw [applyObs_open st o h]
  · cases hl : lookupState st (obKey o) with
    | some v => rw [applyObs_seen st o h v hl]
    | none =>
        rw [applyObs_new st o h hl]
        show lookupState ((obKey o, o.newValue) :: st) k = lookupState st k
        simp only [lookupState]
        rw [if_neg (fun heq => hk heq.symm)]

/-- Once a key is recorded, its ledger entry never changes and it receives
no further increments. -/
theorem runState_of_some (k : String) (v : Int) (obs : List Observation) :
    ∀ st : UsageState, lookupState st k = some v →
      lookupState (runState st obs) k = some v ∧ incrementsFor k st obs = 0 := by
  induction obs with
  | nil => exact fun st h => ⟨h, rfl⟩
  | cons o rest ih =>
      intro st h
      by_cases hk : obKey o = k
      · have hl : lookupState st (obKey o) = some v := by rw [hk]; exact h
        have ha : applyObs st o = (st, 0) := applyObs_noop_of_some st o v hl
        constructor
        · show lookupState (runState (applyObs st o).1 rest) k = some v
          rw [ha]
          exact (ih st h).1
        · show (if obKey o = k then (applyObs st o).2 else 0) +
              incrementsFor k (applyObs st o).1 rest = 0
          rw [ha, if_pos hk]
          show (0 : Int) + incrementsFor k st rest = 0
          rw [(ih st h).2, add_zero]
      · have h' : lookupState (applyObs st o).1 k = some v := by
          rw [lookupState_applyObs_ne st o k hk]; exact h
        constructor
        · exact (ih _ h').1
        · show (if obKey o = k then (applyObs st o).2 else 0) +
              incrementsFor k (applyObs st o).1 rest = 0
          rw [if_neg hk, (ih _ h').2, add_zero]

/-- Starting from a state where a key is absent, the total increment for
that key over any sequence of calls equals the value finally recorded for
it (`0` if it is still absent). -/
theorem incrementsFor_of_none (k : String) (obs : List Observation) :
    ∀ st : UsageState, lookupState st k = none →
      incrementsFor k st obs = (lookupState (runState st obs) k).getD 0 := by
  induction obs with
  | nil =>
      intro st h
      show (0 : Int) = (lookupState st k).getD 0
      rw [h]
      rfl
  | cons o rest ih =>
      intro st h
      by_cases hk : obKey o = k
      · by_cases hb : o.bucketEnd > o.now
        · have ha := applyObs_open st o hb
          show (if obKey o = k then (applyObs st o).2 else 0) +
              incrementsFor k (applyObs st o).1 rest
              = (lookupState (runState (applyObs st o).1 rest) k).getD 0
          rw [ha, if_pos hk]
          show (0 : Int) + incrementsFor k st rest
              = (lookupState (runState st rest) k).getD 0
          rw [zero_add]
          exact ih st h
        · have hl : lookupState st (obKey o) = none := by rw [hk]; exact h
          have ha := applyObs_new st o hb hl
          have hpost : lookupState ((obKey o, o.newValue) :: st) k
              = some o.newValue := by
            simp only [lookupState]
            rw [if_pos hk.symm]
          have hrest := runState_of_some k o.newValue rest
            ((obKey o, o.newValue) :: st) hpost
          show (if obKey o = k then (applyObs st o).2 else 0) +
              incrementsFor k (applyObs st o).1 rest
              = (lookupState (runState (applyObs st o).1 rest) k).getD 0
          rw [ha, if_pos hk]
          show o.newValue + incrementsFor k ((obKey o, o.newValue) :: st) rest
              = (lookupState (runState ((obKey o, o.newValue) :: st) rest) k).getD 0
          rw [hrest.2, hrest.1]
          show o.newValue + 0 = o.newValue
          rw [add_zero]
      · have h' : lookupState (applyObs st o).1 k = none := by
          rw [lookupState_applyObs_ne st o k hk]; exact h
        show (if obKey o = k then (applyObs st o).2 else 0) +
            incrementsFor k (applyObs st o).1 rest
            = (lookupState (runState (applyObs st o).1 rest) k).getD 0
        rw [if_neg hk, zero_add]
        exact ih _ h'

/-! ### Claim theorems -/

/-- C1: for every Bucket Key, the sum of all counter increments ever
applied for that key by `updateMetric` equals the cumulative value
recorded for that key in `usageState`, is `0` when the key is absent from
the ledger, and is never more than the recorded value. -/
theorem ledger_sum_invariant (obs : List Observation) (key : String) :
    incrementsFor key [] obs = (lookupState (runState [] obs) key).getD 0
    ∧ (match lookupState (runState [] obs) key with
       | none => incrementsFor key [] obs = 0
       | some v => incrementsFor key [] obs = v)
    ∧ incrementsFor key [] obs ≤ (lookupState (runState [] obs) key).getD 0 := by
  have h := incrementsFor_of_none key obs [] rfl
  refine ⟨h, ?_, le_of_eq h⟩
  cases hl : lookupState (runState [] obs) key with
  | none =>
      rw [h, hl]
      rfl
  | some v =>
      rw [h, hl]
      rfl

/-- C2: a completed bucket (`bucketEnd ≤ now`) whose Bucket Key is unseen
is published exactly once with its full value and recorded in the ledger;
every later observation of the same key applies no increment and leaves
the recorded value untouched, so a closed bucket observed twice produces
exactly one increment. -/
theorem closed_bucket_counted_once (st : UsageState) (o : Observation)
    (hclosed : o.bucketEnd ≤ o.now)
    (hnew : lookupState st (obKey o) = none) :
    (applyObs st o).2 = o.newValue
    ∧ lookupState (applyObs st o).1 (obKey o) = some o.newValue
    ∧ ∀ rest : List Observation,
        incrementsFor (obKey o) (applyObs st o).1 rest = 0
        ∧ lookupState (runState (applyObs st o).1 rest) (obKey o)
            = some o.newValue := by
  have hb : ¬ o.bucketEnd > o.now := not_lt.mpr hclosed
  have ha := applyObs_new st o hb hnew
  have hpost : lookupState (applyObs st o).1 (obKey o) = some o.newValue := by
    rw [ha]
    show lookupState ((obKey o, o.newValue) :: st) (obKey o) = some o.newValue
    simp [lookupState]
  refine ⟨by rw [ha], hpost, fun rest => ?_⟩
  have h := runState_of_some (obKey o) o.newValue rest (applyObs st o).1 hpost
  exact ⟨h.2, h.1⟩

/-- C2 witness: the spec's scenario — closed bucket `[1000, 1060)` with
`input_tokens = 500` observed twice at `now = 1100` from an empty ledger
adds `500` once, and the second observation adds nothing. -/
theorem closed_bucket_counted_once_witness :
    (applyObs [] closedObs).2 = closedObs.newValue
    ∧ incrementsFor (obKey closedObs) (applyObs [] closedObs).1 [closedObs] = 0 :=
  ⟨(closed_bucket_counted_once [] closedObs (by decide) rfl).1,
   ((closed_bucket_counted_once [] closedObs (by decide) rfl).2.2 [closedObs]).1⟩

/-- C3 counterexample: in the spec's open-bucket scenario (bucket
`[1000, 1200)`, `now = 1100`, values `100` then `130`), the code applies
increments `0` and `0` — not `100` then `30` summing to `130` — because
`updateMetric` skips every bucket with `bucketEnd > now` without recording
anything. -/
theorem open_bucket_no_delta_counterexample :
    (applyObs [] openObs1).2 = 0
    ∧ (applyObs (applyObs [] openObs1).1 openObs2).2 = 0
    ∧ incrementsFor (obKey openObs1) [] [openObs1, openObs2] = 0
    ∧ ¬ ((applyObs [] openObs1).2 = 100)
    ∧ runState [] [openObs1, openObs2] = [] := by
  refine ⟨rfl, rfl, rfl, ?_, rfl⟩
  intro h
  exact absurd h (by decide)

/-- C3 amended: a still-open bucket (`bucketEnd > now`) is skipped
entirely — `updateMetric` applies no increment (in particular never a
negative one) and leaves the ledger unchanged; the bucket's value is only
counted once the bucket has closed. -/
theorem open_bucket_skipped (st : UsageState) (o : Observation)
    (h : o.bucketEnd > o.now) : applyObs st o = (st, 0) :=
  applyObs_open st o h

/-- C3 amended witness: the first open-bucket observation of the spec's
scenario changes nothing and publishes `0`. -/
theorem open_bucket_skipped_witness : applyObs [] openObs1 = ([], 0) :=
  open_bucket_skipped [] openObs1 (by decide)

/-- C4 (code_bug evidence): the `tokensTotal` counter vector in
src/main.go:82-88 is declared with exactly the labels `model, operation,
project_id, user_id, api_key_id, batch, token_type`: the label
`project_name` required by the spec (and used by `TestUpdateMetric` and
documented in the README) is absent. -/
theorem tokensTotal_label_names_lack_project_name :
    "project_name" ∉ tokensTotalLabelNames
    ∧ tokensTotalLabelNames ≠ specTokenCounterLabelNames
    ∧ "project_name" ∈ specTokenCounterLabelNames := by
  decide

/-- C5: the deduplication key is exactly the ordered `"|"`-join of
(operation, bucket start, project id, user id, api-key id, model, batch,
sub-measure name), and depends on nothing else: two observations agreeing
on those eight components have the same Bucket Key regardless of their
bucket end, observed value or clock. -/
theorem bucket_key_composition (o : Observation) :
    obKey o = String.intercalate "|"
      [o.labels.operation, toString o.bucketStart, o.labels.project_id,
       o.labels.user_id, o.labels.api_key_id, o.labels.model,
       o.labels.batch, o.tokenType]
    ∧ ∀ o' : Observation,
        o.labels.operation = o'.labels.operation →
        o.bucketStart = o'.bucketStart →
        o.labels.project_id = o'.labels.project_id →
        o.labels.user_id = o'.labels.user_id →
        o.labels.api_key_id = o'.labels.api_key_id →
        o.labels.model = o'.labels.model →
        o.labels.batch = o'.labels.batch →
        o.tokenType = o'.tokenType →
        obKey o = obKey o' := by
  refine ⟨rfl, fun o' h1 h2 h3 h4 h5 h6 h7 h8 => ?_⟩
  unfold obKey compositeKey
  rw [h1, h2, h3, h4, h5, h6, h7, h8]

/-- C5 witness: two observations agreeing on the eight key components but
differing in bucket end (`1060` vs `99999`), value (`500` vs `777`) and
clock share the same Bucket Key. -/
theorem bucket_key_composition_witness :
    obKey closedObs = obKey obsSameKeyOtherFields :=
  (bucket_key_composition closedObs).2 obsSameKeyOtherFields
    rfl rfl rfl rfl rfl rfl rfl rfl

/-- C6: missing optional dimensions normalize to `"unknown"` through
`deref` before the labels (and hence the Bucket Key) are built, and the
`batch` field normalizes to `"unknown"` for JSON null, `"true"`/`"false"`
for a JSON boolean, and the original string for a JSON string. -/
theorem normalization_of_missing_dimensions
    (operationName : String) (r : UsageResult) :
    (buildLabels operationName r).model = deref r.model
    ∧ (buildLabels operationName r).project_id = deref r.projectID
    ∧ (buildLabels operationName r).user_id = deref r.userID
    ∧ (buildLabels operationName r).api_key_id = deref r.apiKeyID
    ∧ deref none = "unknown"
    ∧ (∀ s : String, deref (some s) = s)
    ∧ StringOrBool.unmarshalJSON Json.null = Except.ok "unknown"
    ∧ (∀ b : Bool, StringOrBool.unmarshalJSON (Json.bool b)
        = Except.ok (if b then "true" else "false"))
    ∧ (∀ s : String, StringOrBool.unmarshalJSON (Json.str s) = Except.ok s) := by
  refine ⟨rfl, rfl, rfl, rfl, rfl, fun s => rfl, rfl, fun b => ?_, fun s => rfl⟩
  cases b <;> rfl

/-- The cursor of the `collect` loop after `n` cycles is the initial
cursor plus `60 * n`. -/
theorem cursorAfter_closed_form (c : Int) :
    ∀ n : Nat, cursorAfter c n = c + 60 * (n : Int) := by
  intro n
  induction n with
  | zero => simp [cursorAfter]
  | succ m ih =>
      show (collectCycle (cursorAfter c m)).2 = c + 60 * ((m : Int) + 1)
      rw [show ∀ x : Int, (collectCycle x).2 = x + 60 from fun x => rfl, ih]
      ring

/-- C7: each `collect` cycle fetches the window `[cursor, cursor + 60)`
for every resource type, then advances the cursor by exactly `60`;
the cursor is strictly increasing and is the lower bound of the next
cycle's fetch window. -/
theorem collect_cycle_window_and_cursor (c : Int) :
    (collectCycle c).1 = usageEndpoints.map (fun ep => (ep.Path, c, c + 60))
    ∧ (collectCycle c).2 = c + 60
    ∧ c < (collectCycle c).2
    ∧ (collectCycle ((collectCycle c).2)).1
        = usageEndpoints.map (fun ep => (ep.Path, c + 60, c + 60 + 60))
    ∧ (∀ n : Nat, cursorAfter c n = c + 60 * (n : Int))
    ∧ (∀ n : Nat, cursorAfter c n < cursorAfter c (n + 1)) := by
  refine ⟨rfl, rfl, show c < c + 60 by omega, rfl,
    cursorAfter_closed_form c, fun n => ?_⟩
  rw [cursorAfter_closed_form c n, cursorAfter_closed_form c (n + 1)]
  push_cast
  omega

/-- C8: for a non-empty, non-`"unknown"` identifier not in the cache, a
failing reference-name fetch yields `"unknown"` and leaves the cache
completely unmodified, so a later call for the same identifier performs
the fetch again and, if it succeeds, returns and caches the name. -/
theorem project_name_fetch_failure_not_cached
    (fetch : String → Except String String) (cache : NameCache)
    (projectID : String) (e : String)
    (hid : ¬ (projectID = "" ∨ projectID = "unknown"))
    (hmiss : lookupCache cache projectID = none)
    (hfail : fetch projectID = Except.error e) :
    ensureProjectName fetch cache projectID = ("unknown", cache)
    ∧ ∀ (fetch2 : String → Except String String) (name : String),
        fetch2 projectID = Except.ok name →
        ensureProjectName fetch2 cache projectID
          = (name, (projectID, name) :: cache) := by
  constructor
  · simp only [ensureProjectName]
    rw [if_neg hid, hmiss, hfail]
  · intro fetch2 name hok
    simp only [ensureProjectName]
    rw [if_neg hid, hmiss, hok]

/-- C8 witness: for identifier `"proj-timeout"` with an empty cache, a
timing-out fetch yields `"unknown"` with the cache untouched, and a later
successful fetch returns and caches `"fetched-project"`. -/
theorem project_name_fetch_failure_not_cached_witness :
    ensureProjectName fetchAlwaysFails [] "proj-timeout" = ("unknown", [])
    ∧ ensureProjectName fetchFixedName [] "proj-timeout"
        = ("fetched-project", [("proj-timeout", "fetched-project")]) :=
  ⟨(project_name_fetch_failure_not_cached fetchAlwaysFails [] "proj-timeout"
      "timeout" (by decide) rfl rfl).1,
   (project_name_fetch_failure_not_cached fetchAlwaysFails [] "proj-timeout"
      "timeout" (by decide) rfl rfl).2 fetchFixedName "fetched-project" rfl⟩

/-- `compositeKey` written out as plain string concatenation. -/
theorem compositeKey_as_append (l : Labels) (t : String) (s : Int) :
    compositeKey l t s
      = l.operation ++ "|" ++ toString s ++ "|" ++ l.project_id ++ "|"
        ++ l.user_id ++ "|" ++ l.api_key_id ++ "|" ++ l.model ++ "|"
        ++ l.batch ++ "|" ++ t := rfl

/-- C9: `deref` maps only a nil pointer to `"unknown"`; a pointer to the
empty string yields `""`, which is distinct from `"unknown"` and forms a
Bucket Key distinct from the one built with the `"unknown"` dimension. -/
theorem empty_dimension_distinct_from_unknown
    (l : Labels) (t : String) (s : Int) :
    deref (some "") = ""
    ∧ deref none = "unknown"
    ∧ ("" : String) ≠ "unknown"
    ∧ (∀ str : String, deref (some str) = str)
    ∧ compositeKey { l with project_id := "" } t s
        ≠ compositeKey { l with project_id := "unknown" } t s := by
  refine ⟨rfl, rfl, by decide, fun str => rfl, fun h => ?_⟩
  have hlen := congrArg String.length h
  have h7 : ("unknown" : String).length = 7 := rfl
  have h0 : ("" : String).length = 0 := rfl
  simp only [compositeKey_as_append, String.length_append, h0, h7] at hlen
  omega

/-- C9 witness: with the scenario labels, the key built with an empty
project id differs from the key built with project id `"unknown"`. -/
theorem empty_dimension_distinct_from_unknown_witness :
    compositeKey { labelsGpt4 with project_id := "" } "input" 1000
      ≠ compositeKey { labelsGpt4 with project_id := "unknown" } "input" 1000 :=
  (empty_dimension_distinct_from_unknown labelsGpt4 "input" 1000).2.2.2.2

/-- C10: `StringOrBool.UnmarshalJSON` rejects every JSON value that is not
null, a string or a boolean (numbers, arrays, objects) with an error
instead of normalizing it to `"unknown"`, and one such `batch` value makes
the decode of the whole page fail. -/
theorem unmarshal_rejects_non_scalar
    (n : Int) (elems : List Json) (fields : List (String × Json)) :
    StringOrBool.unmarshalJSON (Json.num n)
        = Except.error "unsupported type for StringOrBool"
    ∧ StringOrBool.unmarshalJSON (Json.arr elems)
        = Except.error "unsupported type for StringOrBool"
    ∧ StringOrBool.unmarshalJSON (Json.obj fields)
        = Except.error "unsupported type for StringOrBool"
    ∧ (∀ s : String, ¬ (StringOrBool.unmarshalJSON (Json.num n) = Except.ok s))
    ∧ decodePage [rawGood, rawWithNumericBatch]
        = Except.error "unsupported type for StringOrBool" := by
  refine ⟨rfl, rfl, rfl, fun s h => ?_, rfl⟩
  exact Except.noConfusion h

/-- C10 witness: the JSON number `123` is rejected. -/
theorem unmarshal_rejects_non_scalar_witness :
    StringOrBool.unmarshalJSON (Json.num 123)
      = Except.error "unsupported type for StringOrBool" :=
  (unmarshal_rejects_non_scalar 123 [] []).1
